import Mathlib

/-!
Verification of the CI-workflow generator (src/ci.rs, `GenerateCI::generate_github`).

The generator builds one output string by a fixed sequence of `push_str` calls.
We embed it shallowly: every `push_str` call site becomes one constructor of
the `Chunk` type carrying the values interpolated at that site, `Chunk.render`
reproduces the exact text of the corresponding Rust format string, and the
generated document is the concatenation of the rendered chunks in emission
order.  The one panic site (`manifest_path.parent().unwrap()`) is embedded as
an `Option`: `none` models the panic.
-/

namespace MaturinCI

/-- Platform enum from src/ci.rs.  The Rust derived `Ord` orders the variants
in declaration order: All < Linux < Windows < Macos < Emscripten. -/
inductive Platform where
  | all
  | linux
  | windows
  | macos
  | emscripten
deriving DecidableEq, Repr, Fintype

/-- Declaration-order rank, mirroring the Rust derived `Ord` on `Platform`. -/
def Platform.rank : Platform → Nat
  | .all => 0
  | .linux => 1
  | .windows => 2
  | .macos => 3
  | .emscripten => 4

/-- The strict canonical order on platforms (the order `BTreeSet` iterates
in). -/
def platLt (a b : Platform) : Prop := a.rank < b.rank

/-- `Display` impl for `Platform` from src/ci.rs. -/
def Platform.str : Platform → String
  | .all => "all"
  | .linux => "linux"
  | .windows => "windows"
  | .macos => "macos"
  | .emscripten => "emscripten"

/-- `Platform::defaults()` from src/ci.rs. -/
def Platform.defaultsList : List Platform :=
  [Platform.linux, Platform.windows, Platform.macos]

/-- `Platform::all()` from src/ci.rs. -/
def Platform.allPlatforms : List Platform :=
  [Platform.linux, Platform.windows, Platform.macos, Platform.emscripten]

/-- Per-platform architecture matrix (the `targets` match in
`generate_github`). -/
def Platform.targets : Platform → List String
  | .linux => ["x86_64", "x86", "aarch64", "armv7", "s390x", "ppc64le"]
  | .windows => ["x64", "x86"]
  | .macos => ["x86_64", "aarch64"]
  | _ => []

/-- `BridgeModel` from the crate root (`crate::BridgeModel`): the bridging
classification.  Variants as referenced by src/ci.rs: `Bin(Option<..>)`,
`Bindings(name, version)`, `BindingsAbi3(major, minor)`, `Cffi`, `UniFfi`. -/
inductive BridgeModel where
  | bin (binding : Option String)
  | bindings (name : String) (version : Nat)
  | bindingsAbi3 (major minor : Nat)
  | cffi
  | uniFfi
deriving DecidableEq, Repr

/-- Modelled from the spec: `BridgeModel::is_bin`, defined outside src/
(only called there), is true exactly for the standalone-binary variant
`Bin(..)`, with or without a hosted entry point. -/
def BridgeModel.is_bin : BridgeModel → Bool
  | .bin _ => true
  | _ => false

/-- The `GenerateCI` argument struct from src/ci.rs (the `ci` provider field
has a single variant `GitHub` and is omitted: the only provider dispatch in
`generate` is the identity on it). -/
structure GenerateCI where
  manifest_path : Option String
  output : String
  platforms : List Platform
  pytest : Bool
  zig : Bool
deriving DecidableEq, Repr

/-- `Default` impl for `GenerateCI` from src/ci.rs. -/
def GenerateCI.default : GenerateCI :=
  { manifest_path := none
    output := "-"
    platforms := [Platform.linux, Platform.windows, Platform.macos]
    pytest := false
    zig := false }

/-- Modelled from Rust std (`Path` components on Unix, outside this
repository): one parsed path component — the root directory, the
current-directory marker, the parent-directory marker, or a normal name.
(Windows path prefixes are out of scope.) -/
inductive PathComponent where
  | rootDir
  | curDir
  | parentDir
  | normal (s : String)
deriving DecidableEq, Repr

/-- Rendering of one path component back to text. -/
def renderComponent : PathComponent → String
  | .rootDir => "/"
  | .curDir => "."
  | .parentDir => ".."
  | .normal s => s

/-- Split a character list on the path separator (structural counterpart of
splitting the path string on every slash, keeping empty pieces). -/
def splitOnSlash (cs : List Char) : List (List Char) :=
  match cs with
  | [] => [[]]
  | c :: rest =>
    let r := splitOnSlash rest
    if c == '/' then [] :: r
    else
      match r with
      | h :: t => (c :: h) :: t
      | [] => [[c]]

/-- Modelled from Rust std (`Path::components` on Unix, outside this
repository): a leading slash is the root component; a leading `.` on a
relative path (followed by a separator or the end) is the current-directory
component; the remaining pieces between separators are kept, with empty
pieces and non-leading `.` pieces normalized away and `..` parsed as the
parent-directory component. -/
def pathComponents (p : String) : List PathComponent :=
  let hasRoot : Bool := match p.data with | c :: _ => c == '/' | [] => false
  let includeCurDir : Bool :=
    match p.data with
    | ['.'] => true
    | '.' :: c :: _ => c == '/'
    | _ => false
  let body := ((splitOnSlash p.data).filter
      (fun l => !(l == []) && !(l == ['.']))).map
    (fun l =>
      if l == ['.', '.'] then PathComponent.parentDir
      else PathComponent.normal (String.mk l))
  (if hasRoot then [PathComponent.rootDir] else []) ++
    (if includeCurDir then [PathComponent.curDir] else []) ++ body

/-- Modelled from Rust std (`Components::as_path`): a component list rendered
back to a path — an absolute path keeps its leading slash, the remaining
components are joined with slashes. -/
def renderComponents : List PathComponent → String
  | PathComponent.rootDir :: rest =>
      "/" ++ String.intercalate "/" (rest.map renderComponent)
  | comps => String.intercalate "/" (comps.map renderComponent)

/-- Modelled from Rust std (`Path::parent`, outside this repository): pop the
last component; if it is a normal name, `.` or `..`, the parent is the
remaining components rendered back to a path; if the path is empty or
terminates in a root (any root-equivalent spelling such as "/", "//" or
"/."), there is no parent. -/
def pathParent (p : String) : Option String :=
  match (pathComponents p).getLast? with
  | none => none
  | some PathComponent.rootDir => none
  | some _ => some (renderComponents (pathComponents p).dropLast)

/-- The `setup_python` flag computed at the top of `generate_github`:
`self.pytest || matches!(bridge_model, Bin(Some(_)) | Bindings(..) |
BindingsAbi3(..) | Cffi | UniFfi)`. -/
def setup_python (self : GenerateCI) (bridge : BridgeModel) : Bool :=
  self.pytest ||
    (match bridge with
      | .bin (some _) => true
      | .bindings _ _ => true
      | .bindingsAbi3 _ _ => true
      | .cffi => true
      | .uniFfi => true
      | .bin none => false)

/-- `is_abi3` from `generate_github`. -/
def is_abi3 (bridge : BridgeModel) : Bool :=
  match bridge with
  | .bindingsAbi3 _ _ => true
  | _ => false

/-- The `gen_cmd` computation: argv with the leading program name replaced by
the crate name (`env!("CARGO_PKG_NAME")`, i.e. "maturin"), joined by spaces. -/
def genCmd (argv : List String) : String :=
  String.intercalate " " (argv.enum.map (fun ia => if ia.1 = 0 then "maturin" else ia.2))

/-- One output chunk per `push_str`/`format!` call site of `generate_github`,
carrying the values interpolated at that site. -/
inductive Chunk where
  | header (version gen_cmd : String)
  | jobHeader (plat_name os_name : String)
  | strategy (targets : List String)
  | checkout
  | setupPython
  | setupPythonArch
  | pyodideInstall
  | emscriptenEnv
  | emsdkSetup
  | buildWheels (target args : String)
  | manylinux
  | nightlyToolchain
  | uploadWheels (artifact : String)
  | pytestLinuxHost (project chdir : String)
  | pytestLinuxQemu (project chdir : String)
  | setupNode
  | pytestEmscripten (project chdir : String)
  | pytestOther (project chdir : String)
  | blank
  | sdistJob (args : String)
  | sdistUpload
  | release (needs : List String)
  | wasmRelease
deriving DecidableEq, Repr

/-- Literal prefix of the QEMU pytest chunk, up to the first interpolation
(`{project_name}`).  Split out so that the guard predicate it contains can be
exhibited as a substring. -/
def qemuLit1 : String :=
  "      - name: pytest\n        if: $\x7b\x7b !startsWith(matrix.target, \x27x86\x27) && matrix.target != \x27ppc64\x27 \x7d\x7d\n        uses: uraimo/run-on-arch-action@v2.5.0\n        with:\n          arch: $\x7b\x7b matrix.target \x7d\x7d\n          distro: ubuntu22.04\n          githubToken: $\x7b\x7b github.token \x7d\x7d\n          install: |\n            apt-get update\n            apt-get install -y --no-install-recommends python3 python3-pip\n            pip3 install -U pip pytest\n          run: |\n            set -e\n            pip3 install "

/-- Literal prefix of the host pytest chunk, up to `{project_name}`. -/
def hostLit1 : String :=
  "      - name: pytest\n        if: $\x7b\x7b startsWith(matrix.target, \x27x86_64\x27) \x7d\x7d\n        shell: bash\n        run: |\n          set -e\n          pip install "

/-- Exact text of each chunk, transcribed from the format strings of
`generate_github` (a brace of the output text is written \x7b / \x7d, an
apostrophe \x27). -/
def Chunk.render : Chunk → String
  | .header version gen_cmd =>
      "# This file is autogenerated by maturin v" ++ version ++
      "\n# To update, run\n#\n#    " ++ gen_cmd ++
      "\n#\non:\n  push:\n    branches:\n      - main\n      - master\n    tags:\n      - \x27*\x27\n  pull_request:\n  workflow_dispatch:\n\njobs:\n"
  | .jobHeader plat_name os_name =>
      "  " ++ plat_name ++ ":\n    runs-on: " ++ os_name ++ "-latest\n"
  | .strategy targets =>
      "    strategy:\n      matrix:\n        target: [" ++
      String.intercalate ", " targets ++ "]\n"
  | .checkout =>
      "    steps:\n      - uses: actions/checkout@v3\n"
  | .setupPython =>
      "      - uses: actions/setup-python@v4\n        with:\n          python-version: \x273.10\x27\n"
  | .setupPythonArch =>
      "          architecture: $\x7b\x7b matrix.target \x7d\x7d\n"
  | .pyodideInstall =>
      "      - run: pip install pyodide-build\n"
  | .emscriptenEnv =>
      "      - shell: bash\n        run: echo EMSCRIPTEN_VERSION=$(pyodide config get emscripten_version) >> $GITHUB_ENV\n"
  | .emsdkSetup =>
      "      - uses: mymindstorm/setup-emsdk@v12\n        with:\n          version: $\x7b\x7b env.EMSCRIPTEN_VERSION \x7d\x7d\n          actions-cache-folder: emsdk-cache\n"
  | .buildWheels target args =>
      "      - name: Build wheels\n        uses: PyO3/maturin-action@v1\n        with:\n          target: " ++
      target ++ "\n          args: --release --out dist" ++ args ++ "\n"
  | .manylinux =>
      "          manylinux: auto\n"
  | .nightlyToolchain =>
      "          rust-toolchain: nightly\n"
  | .uploadWheels artifact =>
      "      - name: Upload wheels\n        uses: actions/upload-artifact@v3\n        with:\n          name: " ++
      artifact ++ "\n          path: dist\n"
  | .pytestLinuxHost project chdir =>
      hostLit1 ++ project ++
      " --find-links dist --force-reinstall\n          pip install pytest\n          " ++
      chdir ++ "pytest\n"
  | .pytestLinuxQemu project chdir =>
      qemuLit1 ++ project ++
      " --find-links dist --force-reinstall\n            " ++ chdir ++ "pytest\n"
  | .setupNode =>
      "      - uses: actions/setup-node@v3\n        with:\n          node-version: \x2718\x27\n"
  | .pytestEmscripten project chdir =>
      "      - name: pytest\n        run: |\n          set -e\n          pyodide venv .venv\n          source .venv/bin/activate\n          pip install " ++
      project ++
      " --find-links dist --force-reinstall\n          pip install pytest\n          " ++
      chdir ++ "python -m pytest\n"
  | .pytestOther project chdir =>
      "      - name: pytest\n        if: $\x7b\x7b !startsWith(matrix.target, \x27aarch64\x27) \x7d\x7d\n        shell: bash\n        run: |\n          set -e\n          pip install " ++
      project ++
      " --find-links dist --force-reinstall\n          pip install pytest\n          " ++
      chdir ++ "pytest\n"
  | .blank => "\n"
  | .sdistJob args =>
      "  sdist:\n    runs-on: ubuntu-latest\n    steps:\n      - uses: actions/checkout@v3\n      - name: Build sdist\n        uses: PyO3/maturin-action@v1\n        with:\n          command: sdist\n          args: --out dist" ++
      args ++ "\n"
  | .sdistUpload =>
      "      - name: Upload sdist\n        uses: actions/upload-artifact@v3\n        with:\n          name: wheels\n          path: dist\n"
  | .release needs =>
      "  release:\n    name: Release\n    runs-on: ubuntu-latest\n    if: \"startsWith(github.ref, \x27refs/tags/\x27)\"\n    needs: [" ++
      String.intercalate ", " needs ++
      "]\n    steps:\n      - uses: actions/download-artifact@v3\n        with:\n          name: wheels\n      - name: Publish to PyPI\n        uses: PyO3/maturin-action@v1\n        env:\n          MATURIN_PYPI_TOKEN: $\x7b\x7b secrets.PYPI_API_TOKEN \x7d\x7d\n        with:\n          command: upload\n          args: --skip-existing *\n"
  | .wasmRelease =>
      "      - uses: actions/download-artifact@v3\n        with:\n          name: wasm-wheels\n          path: wasm\n      - name: Upload to GitHub Release\n        uses: softprops/action-gh-release@v1\n        with:\n          files: |\n            wasm/*.whl\n          prerelease: $\x7b\x7b contains(github.ref, \x27alpha\x27) || contains(github.ref, \x27beta\x27) \x7d\x7d\n"

/-- Insertion into a sorted duplicate-free list, modelling `BTreeSet`
iteration order (ascending in the derived `Ord`). -/
def insertPlat (p : Platform) : List Platform → List Platform
  | [] => [p]
  | q :: rest =>
      if p = q then q :: rest
      else if p.rank < q.rank then p :: q :: rest
      else q :: insertPlat p rest

/-- Expansion of one requested platform entry (the closure passed to
`flat_map` in `generate_github`): `All` expands to `Platform::all()` when the
bridge model is not a standalone binary, to `Platform::defaults()` when it
is; every other entry passes through unchanged. -/
def expandPlatform (bridge : BridgeModel) (p : Platform) : List Platform :=
  if p = Platform.all then
    if !bridge.is_bin then Platform.allPlatforms else Platform.defaultsList
  else [p]

/-- The resolved platform set (`let platforms: BTreeSet<_> = ...collect()`):
flat-map expansion collected into an ordered set. -/
def resolvedPlatforms (self : GenerateCI) (bridge : BridgeModel) : List Platform :=
  (List.flatten (self.platforms.map (expandPlatform bridge))).foldl
    (fun acc p => insertPlat p acc) []

/-- The `chdir` string computed before the pytest steps: empty for the
default manifest path, otherwise `cd {parent} && ` where `parent` is
`manifest_path.parent().unwrap()` — `none` models the panic of `unwrap`
when the path has no parent. -/
def chdirOpt (mp : Option String) : Option String :=
  match mp with
  | none => some ""
  | some p =>
      if p = "Cargo.toml" then some ""
      else
        match pathParent p with
        | none => none
        | some parent => some ("cd " ++ parent ++ " && ")

/-- The extra build argument decided by the leading if-chain of the
`maturin_args` computation in `generate_github`. -/
def maturinArgsBase (self : GenerateCI) (bridge : BridgeModel) (platform : Platform) :
    List String :=
  if is_abi3 bridge || (bridge.is_bin && !setup_python self bridge) then []
  else if platform = Platform.emscripten then ["-i", "3.10"]
  else ["--find-interpreter"]

/-- The `--manifest-path` arguments appended when the manifest path differs
from the default `Cargo.toml`. -/
def manifestArgs (self : GenerateCI) : List String :=
  match self.manifest_path with
  | none => []
  | some p => if p = "Cargo.toml" then [] else ["--manifest-path", p]

/-- The full `maturin_args` vector for the build step: base arguments, then
the manifest-path override, then `--zig` when the zig flag is set and the
platform is Linux. -/
def maturinArgsFull (self : GenerateCI) (bridge : BridgeModel) (platform : Platform) :
    List String :=
  let args := maturinArgsBase self bridge platform ++ manifestArgs self
  if self.zig && platform = Platform.linux then args ++ ["--zig"] else args

/-- Rendering of the args vector into the build step text: empty string for
no arguments, otherwise a leading space and the space-joined arguments. -/
def argsString (args : List String) : String :=
  if args.isEmpty then "" else " " ++ String.intercalate " " args

/-- The body of the per-platform loop of `generate_github` (everything pushed
for one platform job), as the ordered list of chunks; `none` models the
`unwrap` panic on a manifest path with no parent. -/
def jobChunks (self : GenerateCI) (projectName : String) (bridge : BridgeModel)
    (platform : Platform) : Option (List Chunk) :=
  match chdirOpt self.manifest_path with
  | none => none
  | some chdir =>
      let plat_name := platform.str
      let os_name :=
        match platform with
        | .linux => "ubuntu"
        | .emscripten => "ubuntu"
        | _ => plat_name
      let targets := platform.targets
      let args := argsString (maturinArgsFull self bridge platform)
      let maturin_target :=
        if platform = Platform.emscripten then "wasm32-unknown-emscripten"
        else "$\x7b\x7b matrix.target \x7d\x7d"
      let artifact_name :=
        if platform = Platform.emscripten then "wasm-wheels" else "wheels"
      some
        ([Chunk.jobHeader plat_name os_name]
          ++ (if targets.isEmpty then [] else [Chunk.strategy targets])
          ++ [Chunk.checkout]
          ++ (if setup_python self bridge then
                [Chunk.setupPython]
                  ++ (if platform = Platform.windows then [Chunk.setupPythonArch] else [])
              else [])
          ++ (if platform = Platform.emscripten then
                [Chunk.pyodideInstall, Chunk.emscriptenEnv, Chunk.emsdkSetup]
              else [])
          ++ [Chunk.buildWheels maturin_target args]
          ++ (if platform = Platform.linux then [Chunk.manylinux]
              else if platform = Platform.emscripten then [Chunk.nightlyToolchain]
              else [])
          ++ [Chunk.uploadWheels artifact_name]
          ++ (if self.pytest then
                if platform = Platform.linux then
                  [Chunk.pytestLinuxHost projectName chdir,
                    Chunk.pytestLinuxQemu projectName chdir]
                else if platform = Platform.emscripten then
                  [Chunk.setupNode, Chunk.pytestEmscripten projectName chdir]
                else [Chunk.pytestOther projectName chdir]
              else [])
          ++ [Chunk.blank])

/-- The platform loop of `generate_github`: iterates the resolved set in
order, skips Emscripten for standalone binaries, and accumulates both the
emitted chunks and the `needs` names in emission order. -/
def loopChunks (self : GenerateCI) (projectName : String) (bridge : BridgeModel) :
    List Platform → Option (List Chunk × List String)
  | [] => some ([], [])
  | p :: rest =>
      if bridge.is_bin && p == Platform.emscripten then
        loopChunks self projectName bridge rest
      else
        match jobChunks self projectName bridge p,
            loopChunks self projectName bridge rest with
        | some cs, some (cs2, ns) => some (cs ++ cs2, p.str :: ns)
        | _, _ => none

/-- The sdist job `maturin_args` string (the manifest-path override of the
`Build sdist` step). -/
def sdistArgs (self : GenerateCI) : String :=
  match self.manifest_path with
  | none => ""
  | some p => if p = "Cargo.toml" then "" else " --manifest-path " ++ p

/-- `GenerateCI::generate_github` as the ordered chunk list: header, the
platform jobs, the optional sdist job, the release job, and the extra
wasm-artifact steps when the resolved set contains Emscripten.  `version`
stands for the compile-time `env!("CARGO_PKG_VERSION")` constant and `argv`
for `std::env::args()`; `none` models the panic. -/
def generateGithubChunks (version : String) (argv : List String)
    (self : GenerateCI) (projectName : String) (bridge : BridgeModel)
    (sdist : Bool) : Option (List Chunk) :=
  match loopChunks self projectName bridge (resolvedPlatforms self bridge) with
  | none => none
  | some (cs, ns) =>
      let needs := ns ++ (if sdist then ["sdist"] else [])
      some
        (Chunk.header version (genCmd argv)
          :: cs
          ++ (if sdist then [Chunk.sdistJob (sdistArgs self), Chunk.sdistUpload, Chunk.blank]
              else [])
          ++ [Chunk.release needs]
          ++ (if Platform.emscripten ∈ resolvedPlatforms self bridge then
                [Chunk.wasmRelease]
              else []))

/-- The generated document text: concatenation of the rendered chunks. -/
def generateGithub (version : String) (argv : List String) (self : GenerateCI)
    (projectName : String) (bridge : BridgeModel) (sdist : Bool) : Option String :=
  (generateGithubChunks version argv self projectName bridge sdist).map
    (fun cs => String.join (cs.map Chunk.render))

/-- The rendered text of one platform job. -/
def jobText (self : GenerateCI) (projectName : String) (bridge : BridgeModel)
    (platform : Platform) : Option String :=
  (jobChunks self projectName bridge platform).map
    (fun cs => String.join (cs.map Chunk.render))

/-- Test-step chunks (the pytest steps of §4.2 item 6). -/
def isTestStep : Chunk → Bool
  | .pytestLinuxHost _ _ => true
  | .pytestLinuxQemu _ _ => true
  | .pytestEmscripten _ _ => true
  | .pytestOther _ _ => true
  | _ => false

/-- The runtime-setup chunk. -/
def isSetupPythonChunk : Chunk → Bool
  | .setupPython => true
  | _ => false

/-- The release-section chunk. -/
def isReleaseChunk : Chunk → Bool
  | .release _ => true
  | _ => false

/-- Every job-header chunk in the list carries the given name. -/
def jobHeaderNameOk (name : String) : Chunk → Bool
  | .jobHeader s _ => s == name
  | _ => true

/-- No job header named "emscripten". -/
def noEmscriptenHeader : Chunk → Bool
  | .jobHeader s _ => !(s == "emscripten")
  | _ => true

/-- Neither a test step nor a runtime-setup step. -/
def quietChunk (c : Chunk) : Bool :=
  !(isTestStep c) && !(isSetupPythonChunk c)

/-- Substring containment on strings. -/
def containsStr (s pat : String) : Prop :=
  ∃ a b : String, s = a ++ (pat ++ b)

/-- Spec-side definition, following the words of the claims: the bridging
classification requires a hosted runtime for every variant other than a
standalone binary with no hosted entry point. -/
@[reducible] def requiresHostedRuntime (bridge : BridgeModel) : Prop :=
  bridge ≠ BridgeModel.bin none

/-- Spec-side definition, following the decision table of claim C6: no extra
build argument for a stable-ABI binding or a standalone binary without the
hosted-runtime setup step; the interpreter pin for the web-sandboxed
platform; the auto-detection flag otherwise (first condition first). -/
def extraBuildArgSpec (pytest : Bool) (bridge : BridgeModel) (platform : Platform) :
    List String :=
  if (match bridge with | .bindingsAbi3 _ _ => true | _ => false) = true ∨
      (bridge.is_bin = true ∧ ¬(pytest = true ∨ requiresHostedRuntime bridge)) then []
  else if platform = Platform.emscripten then ["-i", "3.10"]
  else ["--find-interpreter"]

/-- Spec-side definition, following the words of claim C4: the names of the
jobs actually emitted, in emission order — the platform jobs of the resolved
set in canonical order minus the skipped ones, then "sdist" when the
source-distribution flag is set. -/
def specNeeds (self : GenerateCI) (bridge : BridgeModel) (sdist : Bool) : List String :=
  ((resolvedPlatforms self bridge).filter
      (fun p => !(bridge.is_bin && p == Platform.emscripten))).map Platform.str
    ++ (if sdist then ["sdist"] else [])

/-! Helper lemmas -/

theorem Platform.rank_inj : ∀ a b : Platform, a.rank = b.rank → a = b := by decide

theorem Platform.str_inj : ∀ a b : Platform, a.str = b.str → a = b := by decide

theorem mem_insertPlat {a p : Platform} :
    ∀ {l : List Platform}, a ∈ insertPlat p l ↔ a = p ∨ a ∈ l := by
  intro l
  induction l with
  | nil => simp [insertPlat]
  | cons q rest ih =>
    by_cases h1 : p = q
    · subst h1
      have he : insertPlat p (p :: rest) = p :: rest := by simp [insertPlat]
      rw [he, List.mem_cons]
      tauto
    · by_cases h2 : p.rank < q.rank
      · have he : insertPlat p (q :: rest) = p :: q :: rest := by
          simp [insertPlat, h1, h2]
        rw [he]
        simp only [List.mem_cons]
      · have he : insertPlat p (q :: rest) = q :: insertPlat p rest := by
          simp [insertPlat, h1, h2]
        rw [he, List.mem_cons, List.mem_cons, ih]
        tauto

theorem pairwise_insertPlat {p : Platform} :
    ∀ {l : List Platform}, l.Pairwise platLt → (insertPlat p l).Pairwise platLt := by
  intro l
  induction l with
  | nil => intro _; simp [insertPlat, platLt]
  | cons q rest ih =>
    intro hp
    rw [List.pairwise_cons] at hp
    obtain ⟨hq, hrest⟩ := hp
    by_cases h1 : p = q
    · subst h1
      have he : insertPlat p (p :: rest) = p :: rest := by simp [insertPlat]
      rw [he]
      exact List.pairwise_cons.mpr ⟨hq, hrest⟩
    · by_cases h2 : p.rank < q.rank
      · have he : insertPlat p (q :: rest) = p :: q :: rest := by
          simp [insertPlat, h1, h2]
        rw [he]
        refine List.pairwise_cons.mpr ⟨?_, List.pairwise_cons.mpr ⟨hq, hrest⟩⟩
        intro b hb
        rcases List.mem_cons.mp hb with rfl | hb
        · exact h2
        · exact Nat.lt_trans h2 (hq b hb)
      · have he : insertPlat p (q :: rest) = q :: insertPlat p rest := by
          simp [insertPlat, h1, h2]
        rw [he]
        refine List.pairwise_cons.mpr ⟨?_, ih hrest⟩
        intro b hb
        rcases mem_insertPlat.mp hb with rfl | hb
        · have h3 : q.rank ≠ b.rank := fun h => h1 (Platform.rank_inj _ _ h.symm)
          exact Nat.lt_of_le_of_ne (Nat.le_of_not_lt h2) h3
        · exact hq b hb

theorem mem_foldl_insert {a : Platform} :
    ∀ (xs acc : List Platform),
      a ∈ xs.foldl (fun acc p => insertPlat p acc) acc ↔ a ∈ acc ∨ a ∈ xs := by
  intro xs
  induction xs with
  | nil => simp
  | cons x rest ih =>
    intro acc
    rw [List.foldl_cons, ih, mem_insertPlat]
    simp only [List.mem_cons]
    tauto

theorem pairwise_foldl_insert :
    ∀ (xs acc : List Platform), acc.Pairwise platLt →
      (xs.foldl (fun acc p => insertPlat p acc) acc).Pairwise platLt := by
  intro xs
  induction xs with
  | nil => intro acc h; simpa using h
  | cons x rest ih =>
    intro acc h
    rw [List.foldl_cons]
    exact ih _ (pairwise_insertPlat h)

theorem mem_resolvedPlatforms {a : Platform} {self : GenerateCI} {bridge : BridgeModel} :
    a ∈ resolvedPlatforms self bridge ↔
      ∃ q ∈ self.platforms, a ∈ expandPlatform bridge q := by
  rw [resolvedPlatforms, mem_foldl_insert]
  simp [List.mem_flatten]

theorem pairwise_resolvedPlatforms (self : GenerateCI) (bridge : BridgeModel) :
    (resolvedPlatforms self bridge).Pairwise platLt :=
  pairwise_foldl_insert _ _ (List.Pairwise.nil)

theorem sortedPlat_ext :
    ∀ (l1 l2 : List Platform), l1.Pairwise platLt → l2.Pairwise platLt →
      (∀ a, a ∈ l1 ↔ a ∈ l2) → l1 = l2 := by
  intro l1
  induction l1 with
  | nil =>
    intro l2 _ _ hmem
    cases l2 with
    | nil => rfl
    | cons b t => exact absurd ((hmem b).mpr (by simp)) (by simp)
  | cons a t ih =>
    intro l2 h1 h2 hmem
    cases l2 with
    | nil => exact absurd ((hmem a).mp (by simp)) (by simp)
    | cons b t2 =>
      rw [List.pairwise_cons] at h1 h2
      obtain ⟨ha, ht⟩ := h1
      obtain ⟨hb, ht2⟩ := h2
      have hab : a = b := by
        rcases List.mem_cons.mp ((hmem a).mp (List.mem_cons_self a t)) with h | h
        · exact h
        · rcases List.mem_cons.mp ((hmem b).mpr (List.mem_cons_self b t2)) with h' | h'
          · exact h'.symm
          · exact absurd (Nat.lt_trans (ha b h') (hb a h)) (Nat.lt_irrefl _)
      subst hab
      have htmem : ∀ x, x ∈ t ↔ x ∈ t2 := by
        intro x
        constructor
        · intro hx
          rcases List.mem_cons.mp ((hmem x).mp (List.mem_cons_of_mem _ hx)) with rfl | h
          · exact absurd (ha x hx) (Nat.lt_irrefl _)
          · exact h
        · intro hx
          rcases List.mem_cons.mp ((hmem x).mpr (List.mem_cons_of_mem _ hx)) with rfl | h
          · exact absurd (hb x hx) (Nat.lt_irrefl _)
          · exact h
      rw [ih t2 ht ht2 htmem]

theorem mem_ite_list {α : Type} {c : Prop} [Decidable c] {a : α} {l1 l2 : List α} :
    (a ∈ (if c then l1 else l2)) ↔ ((c ∧ a ∈ l1) ∨ (¬c ∧ a ∈ l2)) := by
  split <;> simp [*]

theorem jobChunks_isSome {self : GenerateCI} {proj : String} {bridge : BridgeModel}
    {platform : Platform} (h : (chdirOpt self.manifest_path).isSome = true) :
    (jobChunks self proj bridge platform).isSome = true := by
  unfold jobChunks
  cases hch : chdirOpt self.manifest_path with
  | none => rw [hch] at h; simp at h
  | some ch => simp

theorem jobChunks_mem_setupPython {self : GenerateCI} {proj : String}
    {bridge : BridgeModel} {platform : Platform} {cs : List Chunk}
    (h : jobChunks self proj bridge platform = some cs) :
    Chunk.setupPython ∈ cs ↔ setup_python self bridge = true := by
  unfold jobChunks at h
  cases hch : chdirOpt self.manifest_path with
  | none => rw [hch] at h; simp at h
  | some ch =>
    rw [hch] at h
    simp only [Option.some.injEq] at h
    subst h
    cases platform <;> cases hsp : setup_python self bridge <;>
      cases hpy : self.pytest <;>
      simp [hsp, hpy, Platform.targets, mem_ite_list]

theorem jobChunks_mem_setupPythonArch {self : GenerateCI} {proj : String}
    {bridge : BridgeModel} {platform : Platform} {cs : List Chunk}
    (h : jobChunks self proj bridge platform = some cs) :
    Chunk.setupPythonArch ∈ cs ↔
      (setup_python self bridge = true ∧ platform = Platform.windows) := by
  unfold jobChunks at h
  cases hch : chdirOpt self.manifest_path with
  | none => rw [hch] at h; simp at h
  | some ch =>
    rw [hch] at h
    simp only [Option.some.injEq] at h
    subst h
    cases platform <;> cases hsp : setup_python self bridge <;>
      cases hpy : self.pytest <;>
      simp [hsp, hpy, Platform.targets, mem_ite_list]

theorem jobChunks_all_not_release {self : GenerateCI} {proj : String}
    {bridge : BridgeModel} {platform : Platform} {cs : List Chunk}
    (h : jobChunks self proj bridge platform = some cs) :
    cs.all (fun c => !(isReleaseChunk c)) = true := by
  unfold jobChunks at h
  cases hch : chdirOpt self.manifest_path with
  | none => rw [hch] at h; simp at h
  | some ch =>
    rw [hch] at h
    simp only [Option.some.injEq] at h
    subst h
    cases platform <;> cases hsp : setup_python self bridge <;>
      cases hpy : self.pytest <;>
      simp [hsp, hpy, Platform.targets, isReleaseChunk, List.all_append]

theorem jobChunks_all_jobHeaderName {self : GenerateCI} {proj : String}
    {bridge : BridgeModel} {platform : Platform} {cs : List Chunk}
    (h : jobChunks self proj bridge platform = some cs) :
    cs.all (jobHeaderNameOk platform.str) = true := by
  unfold jobChunks at h
  cases hch : chdirOpt self.manifest_path with
  | none => rw [hch] at h; simp at h
  | some ch =>
    rw [hch] at h
    simp only [Option.some.injEq] at h
    subst h
    cases platform <;> cases hsp : setup_python self bridge <;>
      cases hpy : self.pytest <;>
      simp [hsp, hpy, Platform.targets, Platform.str, jobHeaderNameOk, List.all_append]

theorem jobChunks_all_quiet {self : GenerateCI} {proj : String} {platform : Platform}
    {cs : List Chunk} (hpy : self.pytest = false)
    (h : jobChunks self proj (BridgeModel.bin none) platform = some cs) :
    cs.all quietChunk = true := by
  have hsp : setup_python self (BridgeModel.bin none) = false := by
    simp [setup_python, hpy]
  unfold jobChunks at h
  cases hch : chdirOpt self.manifest_path with
  | none => rw [hch] at h; simp at h
  | some ch =>
    rw [hch] at h
    simp only [Option.some.injEq] at h
    subst h
    cases platform <;>
      simp [hsp, hpy, Platform.targets, quietChunk, isTestStep, isSetupPythonChunk,
        List.all_append]

theorem jobChunks_filter_test_linux {self : GenerateCI} {proj : String}
    {bridge : BridgeModel} {cs : List Chunk} (hpy : self.pytest = true)
    (h : jobChunks self proj bridge Platform.linux = some cs) :
    ∃ ch, chdirOpt self.manifest_path = some ch ∧
      cs.filter isTestStep =
        [Chunk.pytestLinuxHost proj ch, Chunk.pytestLinuxQemu proj ch] := by
  unfold jobChunks at h
  cases hch : chdirOpt self.manifest_path with
  | none => rw [hch] at h; simp at h
  | some ch =>
    rw [hch] at h
    simp only [Option.some.injEq] at h
    subst h
    refine ⟨ch, rfl, ?_⟩
    cases hsp : setup_python self bridge <;>
      simp [hsp, hpy, Platform.targets, isTestStep, List.filter_append]

theorem jobChunks_zig_irrel (self : GenerateCI) (proj : String) (bridge : BridgeModel)
    (platform : Platform) (hnl : platform ≠ Platform.linux) (b1 b2 : Bool) :
    jobChunks { self with zig := b1 } proj bridge platform =
      jobChunks { self with zig := b2 } proj bridge platform := by
  simp [jobChunks, maturinArgsFull, maturinArgsBase, setup_python, manifestArgs, hnl]

theorem listAll_imp {α : Type} {l : List α} {P Q : α → Bool}
    (h : ∀ c, P c = true → Q c = true) (hall : l.all P = true) : l.all Q = true := by
  rw [List.all_eq_true] at hall ⊢
  exact fun c hc => h c (hall c hc)

theorem loopChunks_isSome {self : GenerateCI} (proj : String) (bridge : BridgeModel)
    (h : (chdirOpt self.manifest_path).isSome = true) :
    ∀ ps, (loopChunks self proj bridge ps).isSome = true := by
  intro ps
  induction ps with
  | nil => simp [loopChunks]
  | cons p rest ih =>
    unfold loopChunks
    split
    · exact ih
    · have hj : (jobChunks self proj bridge p).isSome = true := jobChunks_isSome h
      cases hje : jobChunks self proj bridge p with
      | none => rw [hje] at hj; simp at hj
      | some cs =>
        cases hle : loopChunks self proj bridge rest with
        | none => rw [hle] at ih; simp at ih
        | some pair =>
          obtain ⟨cs2, ns⟩ := pair
          simp

theorem loopChunks_needs {self : GenerateCI} {proj : String} {bridge : BridgeModel} :
    ∀ ps cs ns, loopChunks self proj bridge ps = some (cs, ns) →
      ns = (ps.filter (fun p => !(bridge.is_bin && p == Platform.emscripten))).map
        Platform.str := by
  intro ps
  induction ps with
  | nil =>
    intro cs ns h
    simp only [loopChunks, Option.some.injEq, Prod.mk.injEq] at h
    simp [← h.2]
  | cons p rest ih =>
    intro cs ns h
    unfold loopChunks at h
    split at h
    · rename_i hskip
      rw [List.filter_cons_of_neg (by simp [hskip])]
      exact ih _ _ h
    · rename_i hskip
      have hb : (bridge.is_bin && p == Platform.emscripten) = false := by
        revert hskip
        cases bridge.is_bin && p == Platform.emscripten <;> simp
      cases hje : jobChunks self proj bridge p with
      | none => rw [hje] at h; simp at h
      | some cs' =>
        cases hle : loopChunks self proj bridge rest with
        | none => rw [hje, hle] at h; simp at h
        | some pair =>
          obtain ⟨cs2, ns'⟩ := pair
          rw [hje, hle] at h
          simp only [Option.some.injEq, Prod.mk.injEq] at h
          rw [List.filter_cons_of_pos (by simp [hb]), List.map_cons,
            ← h.2, ih _ _ hle]

theorem loopChunks_all {self : GenerateCI} {proj : String} {bridge : BridgeModel}
    (P : Chunk → Bool)
    (hP : ∀ p cs', (bridge.is_bin && p == Platform.emscripten) = false →
      jobChunks self proj bridge p = some cs' → cs'.all P = true) :
    ∀ ps cs ns, loopChunks self proj bridge ps = some (cs, ns) →
      cs.all P = true := by
  intro ps
  induction ps with
  | nil =>
    intro cs ns h
    simp only [loopChunks, Option.some.injEq, Prod.mk.injEq] at h
    simp [← h.1]
  | cons p rest ih =>
    intro cs ns h
    unfold loopChunks at h
    split at h
    · exact ih _ _ h
    · rename_i hskip
      cases hje : jobChunks self proj bridge p with
      | none => rw [hje] at h; simp at h
      | some cs' =>
        cases hle : loopChunks self proj bridge rest with
        | none => rw [hje, hle] at h; simp at h
        | some pair =>
          obtain ⟨cs2, ns'⟩ := pair
          rw [hje, hle] at h
          simp only [Option.some.injEq, Prod.mk.injEq] at h
          have hb : (bridge.is_bin && p == Platform.emscripten) = false := by
            revert hskip
            cases bridge.is_bin && p == Platform.emscripten <;> simp
          rw [← h.1, List.all_append, hP p cs' hb hje, ih _ _ hle]
          rfl

theorem setup_python_iff (self : GenerateCI) (bridge : BridgeModel) :
    setup_python self bridge = true ↔
      (self.pytest = true ∨ bridge ≠ BridgeModel.bin none) := by
  cases bridge with
  | bin o => cases o <;> simp [setup_python]
  | bindings n v => simp [setup_python]
  | bindingsAbi3 a b => simp [setup_python]
  | cffi => simp [setup_python]
  | uniFfi => simp [setup_python]

theorem generateGithubChunks_eq {version : String} {argv : List String}
    {self : GenerateCI} {proj : String} {bridge : BridgeModel} {sdist : Bool}
    {L : List Chunk}
    (h : generateGithubChunks version argv self proj bridge sdist = some L) :
    ∃ cs ns, loopChunks self proj bridge (resolvedPlatforms self bridge) = some (cs, ns) ∧
      L = Chunk.header version (genCmd argv)
        :: (cs
          ++ (if sdist then [Chunk.sdistJob (sdistArgs self), Chunk.sdistUpload, Chunk.blank]
              else [])
          ++ [Chunk.release (ns ++ (if sdist then ["sdist"] else []))]
          ++ (if Platform.emscripten ∈ resolvedPlatforms self bridge then [Chunk.wasmRelease]
              else [])) := by
  unfold generateGithubChunks at h
  cases hl : loopChunks self proj bridge (resolvedPlatforms self bridge) with
  | none => rw [hl] at h; simp at h
  | some pair =>
    obtain ⟨cs, ns⟩ := pair
    rw [hl] at h
    simp only [Option.some.injEq] at h
    exact ⟨cs, ns, rfl, h.symm⟩

theorem emscripten_not_mem_specNeeds (self : GenerateCI) (bridge : BridgeModel)
    (sdist : Bool) (hbin : bridge.is_bin = true) :
    "emscripten" ∉ specNeeds self bridge sdist := by
  intro hmem
  rw [specNeeds] at hmem
  rcases List.mem_append.mp hmem with hm | hm
  · obtain ⟨p, hp, hps⟩ := List.mem_map.mp hm
    have hpred := List.of_mem_filter hp
    rw [hbin] at hpred
    simp only [Bool.true_and, Bool.not_eq_true', beq_eq_false_iff_ne, ne_eq] at hpred
    exact hpred (Platform.str_inj _ _ hps)
  · cases sdist with
    | false => simp at hm
    | true =>
      simp only [if_pos rfl, List.mem_singleton] at hm
      exact absurd hm (by decide)

theorem generate_release_arg {version : String} {argv : List String}
    {self : GenerateCI} {proj : String} {bridge : BridgeModel} {sdist : Bool}
    {L : List Chunk}
    (h : generateGithubChunks version argv self proj bridge sdist = some L) :
    Chunk.release (specNeeds self bridge sdist) ∈ L ∧
      ∀ ns, Chunk.release ns ∈ L → ns = specNeeds self bridge sdist := by
  obtain ⟨cs, ns, hloop, hL⟩ := generateGithubChunks_eq h
  have hns : ns ++ (if sdist then ["sdist"] else []) = specNeeds self bridge sdist := by
    rw [loopChunks_needs _ _ _ hloop]
    rfl
  have hall := loopChunks_all (fun c => !(isReleaseChunk c))
    (fun p cs' _ hj => jobChunks_all_not_release hj) _ _ _ hloop
  constructor
  · rw [hL, ← hns]
    refine List.mem_cons_of_mem _ ?_
    exact List.mem_append.mpr (Or.inl (List.mem_append.mpr (Or.inr (by simp))))
  · intro ns' hmem
    rw [hL] at hmem
    rcases List.mem_cons.mp hmem with heq | hmem2
    · exact Chunk.noConfusion heq
    · simp only [List.mem_append] at hmem2
      rcases hmem2 with ((hcs | hsd) | hrel) | hwasm
      · have := List.all_eq_true.mp hall _ hcs
        simp [isReleaseChunk] at this
      · simp [mem_ite_list] at hsd
      · rw [List.mem_singleton] at hrel
        injection hrel with h'
        rw [h', hns]
      · simp [mem_ite_list] at hwasm

/-! Claim theorems -/

/-- C3: in every platform job emitted, the runtime-setup (setup-python) step is
present if and only if the test flag is true or the bridging classification
requires a hosted runtime (any variant other than a standalone binary with no
hosted entry point); the Windows architecture line, binding the architecture
parameter to the job matrix variable, is present exactly when the setup step
is present and the platform is Windows. -/
theorem c3_runtime_setup_iff :
    ∀ (self : GenerateCI) (proj : String) (bridge : BridgeModel)
      (platform : Platform) (cs : List Chunk),
      jobChunks self proj bridge platform = some cs →
      ((Chunk.setupPython ∈ cs ↔ (self.pytest = true ∨ requiresHostedRuntime bridge)) ∧
        (Chunk.setupPythonArch ∈ cs ↔
          (Chunk.setupPython ∈ cs ∧ platform = Platform.windows)) ∧
        Chunk.render Chunk.setupPythonArch =
          "          architecture: $\x7b\x7b matrix.target \x7d\x7d\n") := by
  intro self proj bridge platform cs h
  refine ⟨?_, ?_, rfl⟩
  · rw [jobChunks_mem_setupPython h, setup_python_iff]
  · rw [jobChunks_mem_setupPythonArch h, jobChunks_mem_setupPython h]

/-- Witness for C3 at a concrete input (Windows job, pyo3 bindings). -/
theorem c3_witness :
    (Chunk.setupPython ∈
        (jobChunks GenerateCI.default "example" (BridgeModel.bindings "pyo3" 7)
          Platform.windows).getD [] ↔
      (GenerateCI.default.pytest = true ∨
        requiresHostedRuntime (BridgeModel.bindings "pyo3" 7))) ∧
    (Chunk.setupPythonArch ∈
        (jobChunks GenerateCI.default "example" (BridgeModel.bindings "pyo3" 7)
          Platform.windows).getD [] ↔
      (Chunk.setupPython ∈
          (jobChunks GenerateCI.default "example" (BridgeModel.bindings "pyo3" 7)
            Platform.windows).getD [] ∧
        Platform.windows = Platform.windows)) ∧
    Chunk.render Chunk.setupPythonArch =
      "          architecture: $\x7b\x7b matrix.target \x7d\x7d\n" :=
  c3_runtime_setup_iff GenerateCI.default "example" (BridgeModel.bindings "pyo3" 7)
    Platform.windows _ rfl

/-- C6: the extra build argument of every platform job equals the decision table of the spec — none for a stable-ABI binding or a standalone binary without
the hosted-runtime setup step, the explicit interpreter pin for the
web-sandboxed platform, the auto-interpreter-detection flag otherwise, with
the first condition taking priority. -/
theorem c6_build_arg_table :
    ∀ (self : GenerateCI) (bridge : BridgeModel) (platform : Platform),
      maturinArgsBase self bridge platform =
        extraBuildArgSpec self.pytest bridge platform := by
  intro self bridge platform
  cases bridge with
  | bin o =>
    cases o <;> cases hpy : self.pytest <;>
      simp [maturinArgsBase, extraBuildArgSpec, is_abi3, BridgeModel.is_bin,
        setup_python, requiresHostedRuntime, hpy]
  | bindings n v =>
    cases hpy : self.pytest <;>
      simp [maturinArgsBase, extraBuildArgSpec, is_abi3, BridgeModel.is_bin,
        setup_python, requiresHostedRuntime, hpy]
  | bindingsAbi3 a b =>
    cases hpy : self.pytest <;>
      simp [maturinArgsBase, extraBuildArgSpec, is_abi3, BridgeModel.is_bin,
        setup_python, requiresHostedRuntime, hpy]
  | cffi =>
    cases hpy : self.pytest <;>
      simp [maturinArgsBase, extraBuildArgSpec, is_abi3, BridgeModel.is_bin,
        setup_python, requiresHostedRuntime, hpy]
  | uniFfi =>
    cases hpy : self.pytest <;>
      simp [maturinArgsBase, extraBuildArgSpec, is_abi3, BridgeModel.is_bin,
        setup_python, requiresHostedRuntime, hpy]

/-- C8: the cross-compile-toolchain flag is appended to the build arguments
exactly when the toolchain flag is set and the platform is Linux, and for
every non-Linux platform the generated job text does not depend on the
toolchain flag at all. -/
theorem c8_zig_linux_only :
    (∀ (self : GenerateCI) (bridge : BridgeModel) (platform : Platform),
        maturinArgsFull self bridge platform =
          maturinArgsFull { self with zig := false } bridge platform ++
            (if self.zig = true ∧ platform = Platform.linux then ["--zig"] else [])) ∧
    (∀ (self : GenerateCI) (proj : String) (bridge : BridgeModel)
        (platform : Platform), platform ≠ Platform.linux →
        jobText { self with zig := true } proj bridge platform =
          jobText { self with zig := false } proj bridge platform) := by
  constructor
  · intro self bridge platform
    by_cases hz : self.zig = true <;> by_cases hl : platform = Platform.linux <;>
      simp [maturinArgsFull, maturinArgsBase, setup_python, manifestArgs, hz, hl]
  · intro self proj bridge platform hnl
    unfold jobText
    rw [jobChunks_zig_irrel self proj bridge platform hnl true false]

/-- Witness for C8 at a concrete input (macOS job is unaffected by zig). -/
theorem c8_witness :
    jobText { GenerateCI.default with zig := true } "example" BridgeModel.cffi
        Platform.macos =
      jobText { GenerateCI.default with zig := false } "example" BridgeModel.cffi
        Platform.macos :=
  c8_zig_linux_only.2 GenerateCI.default "example" BridgeModel.cffi Platform.macos
    (by decide)

/-- C9: when the test flag is set, the Linux job contains exactly two test
steps — the host-run step whose guard gates on targets starting with x86_64,
and the emulated step guarded by the verbatim predicate excluding x86 targets
and the name ppc64, a name that does not occur in the Linux architecture
matrix (which has ppc64le instead). -/
theorem c9_linux_test_steps :
    ∀ (self : GenerateCI) (proj : String) (bridge : BridgeModel) (cs : List Chunk),
      self.pytest = true → jobChunks self proj bridge Platform.linux = some cs →
      ∃ ch, chdirOpt self.manifest_path = some ch ∧
        cs.filter isTestStep =
          [Chunk.pytestLinuxHost proj ch, Chunk.pytestLinuxQemu proj ch] ∧
        containsStr (Chunk.render (Chunk.pytestLinuxHost proj ch))
          "startsWith(matrix.target, \x27x86_64\x27)" ∧
        containsStr (Chunk.render (Chunk.pytestLinuxQemu proj ch))
          "!startsWith(matrix.target, \x27x86\x27) && matrix.target != \x27ppc64\x27" ∧
        "ppc64" ∉ Platform.targets Platform.linux ∧
        "ppc64le" ∈ Platform.targets Platform.linux := by
  intro self proj bridge cs hpy h
  obtain ⟨ch, hch, hfilter⟩ := jobChunks_filter_test_linux hpy h
  refine ⟨ch, hch, hfilter, ?_, ?_, by decide, by decide⟩
  · refine ⟨"      - name: pytest\n        if: $\x7b\x7b ",
      " \x7d\x7d\n        shell: bash\n        run: |\n          set -e\n          pip install "
        ++ (proj ++
          (" --find-links dist --force-reinstall\n          pip install pytest\n          "
            ++ (ch ++ "pytest\n"))), ?_⟩
    show hostLit1 ++ proj ++
        " --find-links dist --force-reinstall\n          pip install pytest\n          "
        ++ ch ++ "pytest\n" = _
    rw [show hostLit1 =
      "      - name: pytest\n        if: $\x7b\x7b " ++
        "startsWith(matrix.target, \x27x86_64\x27)" ++
        " \x7d\x7d\n        shell: bash\n        run: |\n          set -e\n          pip install "
      from rfl]
    simp only [String.append_assoc]
  · refine ⟨"      - name: pytest\n        if: $\x7b\x7b ",
      " \x7d\x7d\n        uses: uraimo/run-on-arch-action@v2.5.0\n        with:\n          arch: $\x7b\x7b matrix.target \x7d\x7d\n          distro: ubuntu22.04\n          githubToken: $\x7b\x7b github.token \x7d\x7d\n          install: |\n            apt-get update\n            apt-get install -y --no-install-recommends python3 python3-pip\n            pip3 install -U pip pytest\n          run: |\n            set -e\n            pip3 install "
        ++ (proj ++
          (" --find-links dist --force-reinstall\n            " ++ (ch ++ "pytest\n"))), ?_⟩
    show qemuLit1 ++ proj ++ " --find-links dist --force-reinstall\n            "
        ++ ch ++ "pytest\n" = _
    rw [show qemuLit1 =
      "      - name: pytest\n        if: $\x7b\x7b " ++
        "!startsWith(matrix.target, \x27x86\x27) && matrix.target != \x27ppc64\x27" ++
        " \x7d\x7d\n        uses: uraimo/run-on-arch-action@v2.5.0\n        with:\n          arch: $\x7b\x7b matrix.target \x7d\x7d\n          distro: ubuntu22.04\n          githubToken: $\x7b\x7b github.token \x7d\x7d\n          install: |\n            apt-get update\n            apt-get install -y --no-install-recommends python3 python3-pip\n            pip3 install -U pip pytest\n          run: |\n            set -e\n            pip3 install "
      from rfl]
    simp only [String.append_assoc]

/-- Witness for C9 at a concrete input (pytest enabled, default manifest). -/
theorem c9_witness :
    ((jobChunks { GenerateCI.default with pytest := true } "example"
          (BridgeModel.bindings "pyo3" 7) Platform.linux).getD []).filter isTestStep =
      [Chunk.pytestLinuxHost "example" "", Chunk.pytestLinuxQemu "example" ""] := by
  obtain ⟨ch, hch, hfil, -, -, -, -⟩ :=
    c9_linux_test_steps { GenerateCI.default with pytest := true } "example"
      (BridgeModel.bindings "pyo3" 7) _ rfl rfl
  have hch' : ch = "" := by
    simp only [chdirOpt] at hch
    exact (Option.some.inj hch).symm
  rw [← hch']
  exact hfil

/-- C4: the needs list of the release job is exactly the names of the jobs
actually emitted before it — the platform jobs of the resolved set in
canonical order minus the skipped ones, then "sdist" when the
source-distribution flag is set — and a skipped platform (Emscripten under a
standalone-binary classification) never appears in it. -/
theorem c4_release_needs :
    ∀ (version : String) (argv : List String) (self : GenerateCI) (proj : String)
      (bridge : BridgeModel) (sdist : Bool) (L : List Chunk),
      generateGithubChunks version argv self proj bridge sdist = some L →
      (Chunk.release (specNeeds self bridge sdist) ∈ L ∧
        (∀ ns, Chunk.release ns ∈ L → ns = specNeeds self bridge sdist) ∧
        (bridge.is_bin = true → "emscripten" ∉ specNeeds self bridge sdist)) := by
  intro version argv self proj bridge sdist L h
  exact ⟨(generate_release_arg h).1, (generate_release_arg h).2,
    emscripten_not_mem_specNeeds self bridge sdist⟩

/-- Witness for C4 at a concrete input (pyo3 bindings, sdist enabled). -/
theorem c4_witness :
    Chunk.release (specNeeds GenerateCI.default (BridgeModel.bindings "pyo3" 7) true) ∈
      (generateGithubChunks "1.0.0" ["maturin"] GenerateCI.default "example"
          (BridgeModel.bindings "pyo3" 7) true).getD [] :=
  (c4_release_needs "1.0.0" ["maturin"] GenerateCI.default "example"
    (BridgeModel.bindings "pyo3" 7) true _ rfl).1

/-- C2 counterexample: with a standalone-binary classification and an
explicitly requested Emscripten platform, the web-sandboxed platform is NOT
dropped from the resolved set, and the release job of the generated document does
contain the sandbox-artifact steps (the wasm download/publish chunk). -/
theorem c2_counterexample :
    Platform.emscripten ∈
        resolvedPlatforms
          ⟨none, "-", [Platform.emscripten], false, false⟩ (BridgeModel.bin none) ∧
      Chunk.wasmRelease ∈
        (generateGithubChunks "1.0.0" ["maturin"]
            ⟨none, "-", [Platform.emscripten], false, false⟩ "example"
            (BridgeModel.bin none) false).getD [] := by
  decide

/-- C2 (amended): for a standalone-binary classification with Emscripten
explicitly requested, no Emscripten job is emitted and "emscripten" never
appears in the release needs list, but Emscripten remains in the resolved
set, so the release job does contain the two sandbox-artifact steps. -/
theorem c2_bin_emscripten_release :
    ∀ (version : String) (argv : List String) (self : GenerateCI) (proj : String)
      (bridge : BridgeModel) (sdist : Bool) (L : List Chunk),
      bridge.is_bin = true → Platform.emscripten ∈ self.platforms →
      generateGithubChunks version argv self proj bridge sdist = some L →
      (Platform.emscripten ∈ resolvedPlatforms self bridge ∧
        (∀ s, Chunk.jobHeader "emscripten" s ∉ L) ∧
        (∀ ns, Chunk.release ns ∈ L → "emscripten" ∉ ns) ∧
        Chunk.wasmRelease ∈ L) := by
  intro version argv self proj bridge sdist L hbin hplat h
  have hres : Platform.emscripten ∈ resolvedPlatforms self bridge :=
    mem_resolvedPlatforms.mpr ⟨Platform.emscripten, hplat, by simp [expandPlatform]⟩
  obtain ⟨cs, ns, hloop, hL⟩ := generateGithubChunks_eq h
  have hP : ∀ p cs', (bridge.is_bin && p == Platform.emscripten) = false →
      jobChunks self proj bridge p = some cs' →
      cs'.all noEmscriptenHeader = true := by
    intro p cs' hcond hj
    have hpne : p ≠ Platform.emscripten := by
      rw [hbin] at hcond
      simpa using hcond
    have hps : p.str ≠ "emscripten" := fun hs => hpne (Platform.str_inj _ _ hs)
    refine listAll_imp ?_ (jobChunks_all_jobHeaderName hj)
    intro c
    cases c <;> simp_all [jobHeaderNameOk, noEmscriptenHeader]
  have hall := loopChunks_all noEmscriptenHeader hP _ _ _ hloop
  refine ⟨hres, ?_, ?_, ?_⟩
  · intro s hmem
    rw [hL] at hmem
    rcases List.mem_cons.mp hmem with heq | hmem2
    · exact Chunk.noConfusion heq
    · simp only [List.mem_append] at hmem2
      rcases hmem2 with ((hcs | hsd) | hrel) | hwasm
      · have := List.all_eq_true.mp hall _ hcs
        simp [noEmscriptenHeader] at this
      · simp [mem_ite_list] at hsd
      · simp at hrel
      · simp [mem_ite_list] at hwasm
  · intro ns' hmem
    rw [(generate_release_arg h).2 ns' hmem]
    exact emscripten_not_mem_specNeeds self bridge sdist hbin
  · rw [hL]
    refine List.mem_cons_of_mem _ (List.mem_append.mpr (Or.inr ?_))
    simp [mem_ite_list, hres]

/-- Witness for the amended C2 at a concrete input. -/
theorem c2_witness :
    Chunk.wasmRelease ∈
      (generateGithubChunks "1.0.0" ["maturin"]
          ⟨none, "-", [Platform.emscripten, Platform.linux], false, false⟩ "example"
          (BridgeModel.bin none) false).getD [] :=
  (c2_bin_emscripten_release "1.0.0" ["maturin"]
    ⟨none, "-", [Platform.emscripten, Platform.linux], false, false⟩ "example"
    (BridgeModel.bin none) false _ rfl (by decide) rfl).2.2.2

/-- C1 counterexample: with classification Bin(None) and the test flag set,
the generated document DOES contain a setup-python step and test steps (the
test flag alone forces both). -/
theorem c1_counterexample :
    Chunk.setupPython ∈
        (generateGithubChunks "1.0.0" ["maturin"]
            ⟨none, "-", [Platform.linux, Platform.windows, Platform.macos], true, false⟩
            "example" (BridgeModel.bin none) true).getD [] ∧
      Chunk.pytestLinuxHost "example" "" ∈
        (generateGithubChunks "1.0.0" ["maturin"]
            ⟨none, "-", [Platform.linux, Platform.windows, Platform.macos], true, false⟩
            "example" (BridgeModel.bin none) true).getD [] := by
  decide

/-- C1 (amended): with classification Bin(None) and the test flag FALSE, the
generated document contains no runtime-setup (setup-python) step and no test
(pytest) steps in any job. -/
theorem c1_bin_none_quiet :
    ∀ (version : String) (argv : List String) (self : GenerateCI) (proj : String)
      (sdist : Bool) (L : List Chunk), self.pytest = false →
      generateGithubChunks version argv self proj (BridgeModel.bin none) sdist = some L →
      L.all quietChunk = true := by
  intro version argv self proj sdist L hpy h
  obtain ⟨cs, ns, hloop, hL⟩ := generateGithubChunks_eq h
  have hall := loopChunks_all quietChunk
    (fun p cs' _ hj => jobChunks_all_quiet hpy hj) _ _ _ hloop
  rw [hL]
  cases sdist <;>
    by_cases hw : Platform.emscripten ∈ resolvedPlatforms self (BridgeModel.bin none) <;>
      simp [hw, List.all_append, hall, quietChunk, isTestStep, isSetupPythonChunk]

/-- Witness for the amended C1 at a concrete input. -/
theorem c1_witness :
    ((generateGithubChunks "1.0.0" ["maturin"] GenerateCI.default "example"
          (BridgeModel.bin none) true).getD []).all quietChunk = true :=
  c1_bin_none_quiet "1.0.0" ["maturin"] GenerateCI.default "example" true _ rfl rfl

theorem loopChunks_output_irrel (mp : Option String) (o1 o2 : String)
    (ps : List Platform) (py z : Bool) (proj : String) (bridge : BridgeModel) :
    ∀ l, loopChunks ⟨mp, o1, ps, py, z⟩ proj bridge l =
      loopChunks ⟨mp, o2, ps, py, z⟩ proj bridge l := by
  intro l
  induction l with
  | nil => rfl
  | cons p rest ih =>
    unfold loopChunks
    rw [ih, show jobChunks ⟨mp, o1, ps, py, z⟩ proj bridge p =
      jobChunks ⟨mp, o2, ps, py, z⟩ proj bridge p from rfl]

theorem generate_output_irrel (version proj : String) (argv : List String)
    (mp : Option String) (o1 o2 : String) (ps : List Platform) (py z : Bool)
    (bridge : BridgeModel) (sdist : Bool) :
    generateGithubChunks version argv ⟨mp, o1, ps, py, z⟩ proj bridge sdist =
      generateGithubChunks version argv ⟨mp, o2, ps, py, z⟩ proj bridge sdist := by
  unfold generateGithubChunks
  rw [show resolvedPlatforms ⟨mp, o1, ps, py, z⟩ bridge =
        resolvedPlatforms ⟨mp, o2, ps, py, z⟩ bridge from rfl,
    loopChunks_output_irrel mp o1 o2 ps py z proj bridge,
    show sdistArgs ⟨mp, o1, ps, py, z⟩ = sdistArgs ⟨mp, o2, ps, py, z⟩ from rfl]

/-- C5 counterexample: with a standalone-binary classification, a requested
list containing All together with an explicit Emscripten entry resolves to a
set that still contains Emscripten, not to the three-platform set. -/
theorem c5_counterexample :
    Platform.emscripten ∈
        resolvedPlatforms
          ⟨none, "-", [Platform.all, Platform.emscripten], false, false⟩
          (BridgeModel.bin none) ∧
      resolvedPlatforms
          ⟨none, "-", [Platform.all, Platform.emscripten], false, false⟩
          (BridgeModel.bin none) ≠
        [Platform.linux, Platform.windows, Platform.macos] := by
  decide

/-- C5 (amended): a requested list containing All resolves, for a
hosted-runtime-capable classification, to exactly
Linux, Windows, macOS, Emscripten; for a standalone-binary classification it
resolves to exactly Linux, Windows, macOS provided the list contains no
explicit Emscripten entry (an explicit entry passes through); and the
resolved set is always strictly sorted in the canonical platform order,
hence deduplicated. -/
theorem c5_all_expansion :
    ∀ (self : GenerateCI) (bridge : BridgeModel),
      ((Platform.all ∈ self.platforms →
          ((bridge.is_bin = false →
              resolvedPlatforms self bridge =
                [Platform.linux, Platform.windows, Platform.macos,
                  Platform.emscripten]) ∧
            (bridge.is_bin = true → Platform.emscripten ∉ self.platforms →
              resolvedPlatforms self bridge =
                [Platform.linux, Platform.windows, Platform.macos]))) ∧
        (resolvedPlatforms self bridge).Pairwise platLt) := by
  intro self bridge
  refine ⟨fun hall => ⟨fun hnb => ?_, fun hb hne => ?_⟩,
    pairwise_resolvedPlatforms self bridge⟩
  · apply sortedPlat_ext _ _ (pairwise_resolvedPlatforms self bridge)
      (by simp [platLt, List.pairwise_cons, Platform.rank])
    intro a
    rw [mem_resolvedPlatforms]
    constructor
    · rintro ⟨q, hq, ha⟩
      by_cases hqa : q = Platform.all
      · subst hqa
        simp only [expandPlatform, if_pos rfl, hnb, Bool.not_false, if_pos] at ha
        simpa [Platform.allPlatforms] using ha
      · simp only [expandPlatform, if_neg hqa, List.mem_singleton] at ha
        subst ha
        cases a <;> simp_all
    · intro ha
      refine ⟨Platform.all, hall, ?_⟩
      simpa [expandPlatform, hnb, Platform.allPlatforms] using ha
  · apply sortedPlat_ext _ _ (pairwise_resolvedPlatforms self bridge)
      (by simp [platLt, List.pairwise_cons, Platform.rank])
    intro a
    rw [mem_resolvedPlatforms]
    constructor
    · rintro ⟨q, hq, ha⟩
      by_cases hqa : q = Platform.all
      · subst hqa
        simp only [expandPlatform, if_pos rfl, hb, Bool.not_true, if_neg] at ha
        simpa [Platform.defaultsList] using ha
      · simp only [expandPlatform, if_neg hqa, List.mem_singleton] at ha
        subst ha
        cases a <;> simp_all
    · intro ha
      refine ⟨Platform.all, hall, ?_⟩
      simpa [expandPlatform, hb, Platform.defaultsList] using ha

/-- Witness for the amended C5 at a concrete input. -/
theorem c5_witness :
    resolvedPlatforms ⟨none, "-", [Platform.all], false, false⟩ BridgeModel.cffi =
      [Platform.linux, Platform.windows, Platform.macos, Platform.emscripten] :=
  ((c5_all_expansion ⟨none, "-", [Platform.all], false, false⟩ BridgeModel.cffi).1
    (by decide)).1 rfl

/-- C7 counterexample: two invocations with identical classification, project
name, sdist flag and configuration fields but different command lines (the
same configuration spelled with and without the default output flag) produce
different document texts, because the header embeds the invoking command
line taken from the process environment. -/
theorem c7_counterexample :
    generateGithub "1.0.0"
        ["maturin", "generate-ci", "github", "--platform", "emscripten"]
        ⟨none, "-", [Platform.emscripten], false, false⟩ "example"
        (BridgeModel.bin none) false ≠
      generateGithub "1.0.0"
        ["maturin", "generate-ci", "github", "--platform", "emscripten", "-o", "-"]
        ⟨none, "-", [Platform.emscripten], false, false⟩ "example"
        (BridgeModel.bin none) false := by
  decide

/-- C7 (amended): generation is a pure function of the classification, the
project name, the sdist flag, the tool version, the invoking command line,
and the configuration fields other than the output destination — the output
destination itself does not influence the produced text. -/
theorem c7_pure_function :
    ∀ (version : String) (argv : List String) (proj : String)
      (bridge : BridgeModel) (sdist : Bool) (c1 c2 : GenerateCI),
      c1.manifest_path = c2.manifest_path → c1.platforms = c2.platforms →
      c1.pytest = c2.pytest → c1.zig = c2.zig →
      generateGithub version argv c1 proj bridge sdist =
        generateGithub version argv c2 proj bridge sdist := by
  intro version argv proj bridge sdist c1 c2 h1 h2 h3 h4
  obtain ⟨mp1, o1, ps1, py1, z1⟩ := c1
  obtain ⟨mp2, o2, ps2, py2, z2⟩ := c2
  dsimp only at h1 h2 h3 h4
  subst h1; subst h2; subst h3; subst h4
  unfold generateGithub
  rw [generate_output_irrel version proj argv mp1 o1 o2 ps1 py1 z1 bridge sdist]

/-- Witness for the amended C7 at a concrete input (output "-" versus a file
path; the documents coincide). -/
theorem c7_witness :
    generateGithub "1.0.0" ["maturin"]
        ⟨none, "-", [Platform.linux], false, false⟩ "example" BridgeModel.uniFfi
        false =
      generateGithub "1.0.0" ["maturin"]
        ⟨none, "ci.yml", [Platform.linux], false, false⟩ "example"
        BridgeModel.uniFfi false :=
  c7_pure_function "1.0.0" ["maturin"] "example" BridgeModel.uniFfi false
    ⟨none, "-", [Platform.linux], false, false⟩
    ⟨none, "ci.yml", [Platform.linux], false, false⟩ rfl rfl rfl rfl

/-- C10: generation is total whenever the manifest-path override is absent,
is the default Cargo.toml, or has a parent directory; and for a manifest
path with no parent — any root-equivalent spelling such as "/", "//" or
"/." — the embedded `parent().unwrap()` evaluates to none and generation
fails instead of producing a document. -/
theorem c10_manifest_parent :
    ((∀ (version : String) (argv : List String) (self : GenerateCI) (proj : String)
        (bridge : BridgeModel) (sdist : Bool),
        (self.manifest_path = none ∨
          (∃ p, self.manifest_path = some p ∧
            (p = "Cargo.toml" ∨ (pathParent p).isSome = true))) →
        (generateGithubChunks version argv self proj bridge sdist).isSome = true) ∧
      generateGithubChunks "1.0.0" ["maturin"]
          ⟨some "/", "-", [Platform.linux, Platform.windows, Platform.macos],
            false, false⟩
          "example" (BridgeModel.bindings "pyo3" 7) true = none ∧
      generateGithubChunks "1.0.0" ["maturin"]
          ⟨some "//", "-", [Platform.linux, Platform.windows, Platform.macos],
            false, false⟩
          "example" (BridgeModel.bindings "pyo3" 7) true = none ∧
      generateGithubChunks "1.0.0" ["maturin"]
          ⟨some "/.", "-", [Platform.linux, Platform.windows, Platform.macos],
            false, false⟩
          "example" (BridgeModel.bindings "pyo3" 7) true = none) := by
  constructor
  · intro version argv self proj bridge sdist hpre
    have hch : (chdirOpt self.manifest_path).isSome = true := by
      rcases hpre with hnone | ⟨p, hp, hcase⟩
      · simp [chdirOpt, hnone]
      · rw [hp]
        rcases hcase with rfl | hps
        · simp [chdirOpt]
        · unfold chdirOpt
          by_cases hc : p = "Cargo.toml"
          · simp [hc]
          · simp only [if_neg hc]
            cases hpp : pathParent p with
            | none => rw [hpp] at hps; simp at hps
            | some q => simp
    unfold generateGithubChunks
    cases hl : loopChunks self proj bridge (resolvedPlatforms self bridge) with
    | none =>
      have := loopChunks_isSome proj bridge hch (resolvedPlatforms self bridge)
      rw [hl] at this
      simp at this
    | some pair =>
      obtain ⟨cs, ns⟩ := pair
      simp
  · decide

/-- Witness for the totality half of C10 at a concrete input. -/
theorem c10_witness :
    (generateGithubChunks "1.0.0" ["maturin"] GenerateCI.default "example"
        BridgeModel.uniFfi false).isSome = true :=
  c10_manifest_parent.1 "1.0.0" ["maturin"] GenerateCI.default "example"
    BridgeModel.uniFfi false (Or.inl rfl)

end MaturinCI
